import Mathlib

/-!
Verification of the esp32-api server (`src/server.js`, `src/unnamed/part_000`).

The repository contains several near-duplicate variants of the same Express
service.  The parts relevant to the verified claims are embedded shallowly:

* the in-memory fallback store `sensorDataMemory` with its id counter `nextId`,
  and the MongoDB collection, as explicit list-valued state;
* the ROLLING_WINDOW reset scheduler of the first variant of `src/server.js`
  (`lastResetTimestamp`, `umDiaEmMs`, `resetDatabase`, `checkAndResetDaily`);
* the CALENDAR_DAY reset scheduler of `src/unnamed/part_000`
  (`lastResetDate`, `resetDatabase`, `checkAndResetDaily`);
* the time resolver of the second variant of `src/server.js`
  (`getRealBrasiliaTime`, `getBrasiliaTimeFallback`);
* the HTTP handlers `POST /api/sensor-data` and `GET /api/sensor-data`.

JS timestamps are modelled as integers (milliseconds since the epoch); the
numeric sensor values themselves are never computed with by any verified
property and are carried as integers.
-/

namespace Esp32

/-- Time in milliseconds since the Unix epoch, as produced by `Date.now()` /
`Date.prototype.getTime()`. -/
abbrev Millis := Int

/-- `const umDiaEmMs = 24 * 60 * 60 * 1000` (src/server.js:53). -/
def umDiaEmMs : Millis := 24 * 60 * 60 * 1000

/-- One stored sensor record (the `sensorSchema` fields plus the memory-backend
`id`).  For MongoDB records the `id` field is unused (the store assigns its own
`_id`) and is kept at `0`. -/
structure Reading where
  temperatura : Int
  umidadeAr : Int
  umidadeSolo : Int
  ldr : Int
  bomba : Bool
  timestamp : Millis
  id : Nat
deriving DecidableEq, Repr

/-- Which store an operation ran against (the `database: 'mongodb' | 'memory'`
tag of every response). -/
inductive Backend
  | mongodb
  | memory
deriving DecidableEq, Repr

/-- The shared mutable state of the process: mongoose's live
`connection.readyState` (`1` means connected), the MongoDB collection, the
fallback array `sensorDataMemory` (src/server.js:45) and its counter `nextId`
(src/server.js:46). -/
structure SysState where
  readyState : Nat
  mongoStore : List Reading
  memStore : List Reading
  nextId : Nat
deriving DecidableEq, Repr

/-- Number of records in the currently active store (`countDocuments()` on the
MongoDB branch, `sensorDataMemory.length` on the memory branch). -/
def SysState.count (st : SysState) : Nat :=
  if st.readyState = 1 then st.mongoStore.length else st.memStore.length

namespace RollingWindow

/-- Scheduler state of the ROLLING_WINDOW variant: `lastResetTimestamp`
(src/server.js:51) together with the store state. -/
structure State where
  sys : SysState
  lastResetTimestamp : Millis
deriving DecidableEq, Repr

/-- `resetDatabase` (src/server.js:56-97).  On the MongoDB branch the wipe is
`deleteMany` and may fail (`mongoOk = false` models a thrown error, which the
`catch` rethrows before `lastResetTimestamp = Date.now()` is ever reached); the
memory branch clears `sensorDataMemory`, sets `nextId = 1` and cannot fail.
`now` is the `Date.now()` observed by the marker update; the second component
is the returned `deletedCount` (`none` when the wipe threw). -/
def resetDatabase (st : State) (now : Millis) (mongoOk : Bool) :
    State × Option Nat :=
  if st.sys.readyState = 1 then
    if mongoOk then
      ({ sys := { st.sys with mongoStore := [] }, lastResetTimestamp := now },
       some st.sys.mongoStore.length)
    else
      (st, none)
  else
    ({ sys := { st.sys with memStore := [], nextId := 1 },
       lastResetTimestamp := now },
     some st.sys.memStore.length)

/-- `checkAndResetDaily` (src/server.js:100-120): compute
`tempoDesdeReset = agora - lastResetTimestamp` and wipe exactly when
`tempoDesdeReset >= umDiaEmMs`.  The boolean records whether the wipe branch
was taken. -/
def checkAndResetDaily (st : State) (now : Millis) (mongoOk : Bool) :
    State × Bool :=
  if umDiaEmMs ≤ now - st.lastResetTimestamp then
    ((resetDatabase st now mongoOk).1, true)
  else
    (st, false)

/-- The wipe decision made by each tick of a sequence (wipes succeed). -/
def tickFlags (st : State) : List Millis → List Bool
  | [] => []
  | t :: ts =>
    (checkAndResetDaily st t true).2 :: tickFlags (checkAndResetDaily st t true).1 ts

/-- State after running a sequence of ticks (wipes succeed). -/
def runTicks (st : State) : List Millis → State
  | [] => st
  | t :: ts => runTicks (checkAndResetDaily st t true).1 ts

theorem check_eq_pos {st : State} {now : Millis} {ok : Bool}
    (h : umDiaEmMs ≤ now - st.lastResetTimestamp) :
    checkAndResetDaily st now ok = ((resetDatabase st now ok).1, true) := by
  unfold checkAndResetDaily
  rw [if_pos h]

theorem check_eq_neg {st : State} {now : Millis} {ok : Bool}
    (h : ¬ umDiaEmMs ≤ now - st.lastResetTimestamp) :
    checkAndResetDaily st now ok = (st, false) := by
  unfold checkAndResetDaily
  rw [if_neg h]

theorem reset_ok_marker (st : State) (now : Millis) :
    (resetDatabase st now true).1.lastResetTimestamp = now := by
  unfold resetDatabase
  split <;> simp

end RollingWindow

/-- C1: ROLLING_WINDOW policy: a tick wipes iff at least 24 hours elapsed since
`lastResetTimestamp`; a wipe moves the marker to the wipe's `now` and a
non-wiping tick leaves it unchanged; for ticks at offsets 1h, 23h, 25h and
1h-after-that from the marker, exactly the 25h tick wipes, and the next wipe is
due 24h after it (at offset 49h). -/
theorem rolling_window_policy (st : RollingWindow.State) (now t0 : Millis)
    (s : SysState) :
    ((RollingWindow.checkAndResetDaily st now true).2 = true
        ↔ umDiaEmMs ≤ now - st.lastResetTimestamp)
  ∧ ((RollingWindow.checkAndResetDaily st now true).1.lastResetTimestamp
        = if umDiaEmMs ≤ now - st.lastResetTimestamp then now
          else st.lastResetTimestamp)
  ∧ RollingWindow.tickFlags ⟨s, t0⟩
      [t0 + 3600000, t0 + 23 * 3600000, t0 + 25 * 3600000, t0 + 26 * 3600000]
      = [false, false, true, false]
  ∧ (RollingWindow.runTicks ⟨s, t0⟩
      [t0 + 3600000, t0 + 23 * 3600000, t0 + 25 * 3600000,
        t0 + 26 * 3600000]).lastResetTimestamp + umDiaEmMs
      = t0 + 49 * 3600000 := by
  have h1 : RollingWindow.checkAndResetDaily ⟨s, t0⟩ (t0 + 3600000) true
      = (⟨s, t0⟩, false) :=
    RollingWindow.check_eq_neg (by norm_num [umDiaEmMs])
  have h2 : RollingWindow.checkAndResetDaily ⟨s, t0⟩ (t0 + 23 * 3600000) true
      = (⟨s, t0⟩, false) :=
    RollingWindow.check_eq_neg (by norm_num [umDiaEmMs])
  have h3 : RollingWindow.checkAndResetDaily ⟨s, t0⟩ (t0 + 25 * 3600000) true
      = ((RollingWindow.resetDatabase ⟨s, t0⟩ (t0 + 25 * 3600000) true).1, true) :=
    RollingWindow.check_eq_pos (by norm_num [umDiaEmMs])
  have hm : (RollingWindow.resetDatabase ⟨s, t0⟩ (t0 + 25 * 3600000)
      true).1.lastResetTimestamp = t0 + 25 * 3600000 :=
    RollingWindow.reset_ok_marker _ _
  have h4 : RollingWindow.checkAndResetDaily
      (RollingWindow.resetDatabase ⟨s, t0⟩ (t0 + 25 * 3600000) true).1
      (t0 + 26 * 3600000) true
      = ((RollingWindow.resetDatabase ⟨s, t0⟩ (t0 + 25 * 3600000) true).1, false) :=
    RollingWindow.check_eq_neg (by rw [hm]; norm_num [umDiaEmMs])
  refine ⟨?_, ?_, ?_, ?_⟩
  · unfold RollingWindow.checkAndResetDaily
    split <;> simp_all
  · unfold RollingWindow.checkAndResetDaily
    split
    · rw [RollingWindow.reset_ok_marker]
    · rfl
  · simp only [RollingWindow.tickFlags, h1, h2, h3, h4]
  · simp only [RollingWindow.runTicks, h1, h2, h3, h4]
    rw [hm]
    norm_num [umDiaEmMs]
    ring

/-- A sample stored record. -/
def r0 : Reading := ⟨25, 60, 512, 2048, true, 10, 0⟩

/-- A ROLLING_WINDOW state whose MongoDB connection is up and whose collection
holds one record. -/
def stOnline : RollingWindow.State := ⟨⟨1, [r0], [], 1⟩, 0⟩

/-- A ROLLING_WINDOW state running on the memory fallback with empty stores. -/
def stOffline : RollingWindow.State := ⟨⟨0, [], [], 1⟩, 0⟩

/-- C2: `resetDatabase` advances `lastResetTimestamp` only after the wipe of
the active store succeeded; when the MongoDB wipe throws, the error is rethrown
before the marker assignment, so the whole state is unchanged and a later tick
at a crossed boundary performs the wipe again. -/
theorem reset_marker_discipline (st : RollingWindow.State) (now : Millis)
    (ok : Bool) :
    ((RollingWindow.resetDatabase st now ok).1.lastResetTimestamp
        = if ((RollingWindow.resetDatabase st now ok).2).isSome then now
          else st.lastResetTimestamp)
  ∧ ((RollingWindow.resetDatabase st now ok).2 = none
        → RollingWindow.resetDatabase st now ok = (st, none)
          ∧ ∀ now2 : Millis, umDiaEmMs ≤ now2 - st.lastResetTimestamp
              → (RollingWindow.checkAndResetDaily
                  (RollingWindow.resetDatabase st now ok).1 now2 true).2 = true) := by
  unfold RollingWindow.resetDatabase
  split
  · split
    · simp
    · refine ⟨by simp, fun _ => ⟨rfl, fun now2 h2 => ?_⟩⟩
      show (RollingWindow.checkAndResetDaily st now2 true).2 = true
      rw [RollingWindow.check_eq_pos h2]
  · simp

/-- Witness for C2 at a connected state whose wipe fails at time 5: the state is
unchanged and a tick at 86400000 (≥ 24h after marker 0) wipes. -/
theorem reset_marker_discipline_witness :
    RollingWindow.resetDatabase stOnline 5 false = (stOnline, none)
  ∧ (RollingWindow.checkAndResetDaily
      (RollingWindow.resetDatabase stOnline 5 false).1 86400000 true).2 = true :=
  ⟨((reset_marker_discipline stOnline 5 false).2 (by decide)).1,
   ((reset_marker_discipline stOnline 5 false).2 (by decide)).2 86400000 (by decide)⟩

/-- C6: `wipeAll` (`resetDatabase`) is idempotent: after a wipe, a second wipe
reports `deletedCount = 0` and leaves the active store with `count() = 0`, and
wiping an already-empty store succeeds as a no-op with `deletedCount = 0`. -/
theorem wipe_idempotent (st : RollingWindow.State) (n1 n2 : Millis) :
    (RollingWindow.resetDatabase
        (RollingWindow.resetDatabase st n1 true).1 n2 true).2 = some 0
  ∧ ((RollingWindow.resetDatabase
        (RollingWindow.resetDatabase st n1 true).1 n2 true).1).sys.count = 0
  ∧ (st.sys.count = 0 → (RollingWindow.resetDatabase st n1 true).2 = some 0) := by
  unfold RollingWindow.resetDatabase SysState.count
  split <;> simp_all

/-- Witness for C6: wiping the empty memory store returns `deletedCount = 0`. -/
theorem wipe_idempotent_witness :
    (RollingWindow.resetDatabase stOffline 7 true).2 = some 0 :=
  (wipe_idempotent stOffline 7 7).2.2 (by decide)

namespace CalendarDay

/-- The value of `Date.prototype.toDateString()`: an identifier of the civil
calendar day (year, month and day) of the current time.  Only equality of days
matters to the scheduler, so days are abstract identifiers. -/
abbrev DateStr := Nat

/-- Scheduler state of the CALENDAR_DAY variant: `lastResetDate`
(src/unnamed/part_000:49), initialized at process start to the then-current
day, together with the store state. -/
structure State where
  sys : SysState
  lastResetDate : DateStr
deriving DecidableEq, Repr

/-- `resetDatabase` (src/unnamed/part_000:52-83): wipe the active store, then
set `lastResetDate = new Date().toDateString()`, i.e. the current day. -/
def resetDatabase (st : State) (today : DateStr) (mongoOk : Bool) :
    State × Option Nat :=
  if st.sys.readyState = 1 then
    if mongoOk then
      ({ sys := { st.sys with mongoStore := [] }, lastResetDate := today },
       some st.sys.mongoStore.length)
    else
      (st, none)
  else
    ({ sys := { st.sys with memStore := [], nextId := 1 }, lastResetDate := today },
     some st.sys.memStore.length)

/-- `checkAndResetDaily` (src/unnamed/part_000:86-100): read
`today = new Date().toDateString()` and wipe exactly when
`today !== lastResetDate` (the successful-wipe path). -/
def checkAndResetDaily (st : State) (today : DateStr) : State × Bool :=
  if today ≠ st.lastResetDate then
    ((resetDatabase st today true).1, true)
  else
    (st, false)

/-- The wipe decision made by each tick of a sequence of resolved days. -/
def tickFlags (st : State) : List DateStr → List Bool
  | [] => []
  | d :: ds =>
    (checkAndResetDaily st d).2 :: tickFlags (checkAndResetDaily st d).1 ds

theorem check_day_eq_pos {st : State} {today : DateStr}
    (h : today ≠ st.lastResetDate) :
    checkAndResetDaily st today = ((resetDatabase st today true).1, true) := by
  unfold checkAndResetDaily
  rw [if_pos h]

theorem check_day_eq_neg {st : State} {today : DateStr}
    (h : ¬ today ≠ st.lastResetDate) :
    checkAndResetDaily st today = (st, false) := by
  unfold checkAndResetDaily
  rw [if_neg h]

theorem reset_day_marker (st : State) (today : DateStr) :
    (resetDatabase st today true).1.lastResetDate = today := by
  unfold resetDatabase
  split <;> simp

end CalendarDay

/-- C5: CALENDAR_DAY policy: after initialization a tick wipes iff the resolved
current day differs from `lastResetDate`; a wipe sets the marker to the new day
(a non-wiping tick leaves it unchanged); for ticks resolving to days
[d1, d1, d2, d2] starting from marker d1, exactly one wipe occurs, between the
second and third tick. -/
theorem calendar_day_policy (st : CalendarDay.State)
    (today d1 d2 : CalendarDay.DateStr) (s : SysState) (h : d1 ≠ d2) :
    ((CalendarDay.checkAndResetDaily st today).2 = true
        ↔ today ≠ st.lastResetDate)
  ∧ ((CalendarDay.checkAndResetDaily st today).1.lastResetDate
        = if today ≠ st.lastResetDate then today else st.lastResetDate)
  ∧ CalendarDay.tickFlags ⟨s, d1⟩ [d1, d1, d2, d2]
        = [false, false, true, false] := by
  have h1 : CalendarDay.checkAndResetDaily ⟨s, d1⟩ d1 = (⟨s, d1⟩, false) :=
    CalendarDay.check_day_eq_neg (by simp)
  have h3 : CalendarDay.checkAndResetDaily ⟨s, d1⟩ d2
      = ((CalendarDay.resetDatabase ⟨s, d1⟩ d2 true).1, true) :=
    CalendarDay.check_day_eq_pos (by simp; exact fun hh => h hh.symm)
  have hm : (CalendarDay.resetDatabase ⟨s, d1⟩ d2 true).1.lastResetDate = d2 :=
    CalendarDay.reset_day_marker _ _
  have h4 : CalendarDay.checkAndResetDaily
      (CalendarDay.resetDatabase ⟨s, d1⟩ d2 true).1 d2
      = ((CalendarDay.resetDatabase ⟨s, d1⟩ d2 true).1, false) :=
    CalendarDay.check_day_eq_neg (by rw [hm]; simp)
  refine ⟨?_, ?_, ?_⟩
  · unfold CalendarDay.checkAndResetDaily
    split <;> simp_all
  · unfold CalendarDay.checkAndResetDaily
    split
    · exact CalendarDay.reset_day_marker st today
    · rfl
  · simp only [CalendarDay.tickFlags, h1, h3, h4]

/-- Witness for C5 on concrete days 0 and 1 against the memory fallback. -/
theorem calendar_day_policy_witness :
    CalendarDay.tickFlags ⟨⟨0, [], [], 1⟩, 0⟩ [0, 0, 1, 1]
      = [false, false, true, false] :=
  (calendar_day_policy ⟨⟨0, [], [], 1⟩, 0⟩ 0 0 1 ⟨0, [], [], 1⟩
    (by decide)).2.2

/-- A JS `Date` value: either a valid instant or the `Invalid Date` produced by
`new Date(x)` when `x` does not parse as a date. -/
inductive JsDate
  | valid (ms : Millis)
  | invalid
deriving DecidableEq, Repr

/-- Outcome of the `fetch` of worldtimeapi.org inside `getRealBrasiliaTime`
(src/server.js:549-571):
* `success t` - OK response with a JSON body whose `datetime` parses to `t`;
* `networkError` - the `fetch` promise rejected (thrown, caught);
* `httpError` - `response.ok` was false, so `throw new Error` (caught);
* `invalidJson` - `response.json()` threw on a body that is not JSON (caught);
* `badDatetime` - a valid JSON body whose `datetime` field does not parse:
  `new Date(data.datetime)` yields `Invalid Date` without throwing. -/
inductive FetchOutcome
  | success (t : Millis)
  | networkError
  | httpError
  | invalidJson
  | badDatetime
deriving DecidableEq, Repr

/-- `getBrasiliaTimeFallback` (src/server.js:574-583): take the local clock
`now`, convert to UTC via `getTimezoneOffset()` (in minutes), and apply the
fixed Brasília offset of -3 hours.  Pure arithmetic on the local clock. -/
def getBrasiliaTimeFallback (nowMs tzOffsetMin : Millis) : JsDate :=
  let offset : Int := -3
  let utc := nowMs + tzOffsetMin * 60000
  .valid (utc + 3600000 * offset)

/-- `getRealBrasiliaTime` (src/server.js:549-571): fetch the Brasília time from
WorldTimeAPI; every thrown error is caught and answered with
`getBrasiliaTimeFallback`; a JSON body whose `datetime` does not parse throws
nothing, so the resulting `Invalid Date` is returned as the "real time". -/
def getRealBrasiliaTime (outcome : FetchOutcome) (nowMs tzOffsetMin : Millis) :
    JsDate :=
  match outcome with
  | .success t => .valid t
  | .networkError => getBrasiliaTimeFallback nowMs tzOffsetMin
  | .httpError => getBrasiliaTimeFallback nowMs tzOffsetMin
  | .invalidJson => getBrasiliaTimeFallback nowMs tzOffsetMin
  | .badDatetime => .invalid

/-- C7 counterexample: a malformed body that is syntactically valid JSON but
whose `datetime` field does not parse makes `getRealBrasiliaTime` return
`Invalid Date` - not the local fallback computation - so not every time-fetch
failure falls back. -/
theorem time_resolver_counterexample :
    getRealBrasiliaTime .badDatetime 0 0 = .invalid
  ∧ getBrasiliaTimeFallback 0 0 = .valid (-10800000)
  ∧ getRealBrasiliaTime .badDatetime 0 0 ≠ getBrasiliaTimeFallback 0 0 := by
  refine ⟨rfl, by decide, by decide⟩

/-- C7 (amended): on a rejected fetch, a non-success status, or a body that is
not parseable JSON, `getRealBrasiliaTime` returns exactly the local fallback -
the local clock converted to UTC with the fixed UTC-3 correction applied; the
fallback is total arithmetic yielding a valid date; no error outcome escapes
the resolver (a total function into `JsDate`); a successful fetch is returned
as-is.  Only a valid-JSON body with an unparseable `datetime` escapes the
fallback, yielding `Invalid Date`. -/
theorem time_resolver_fallback (nowMs tzOffsetMin t : Millis) :
    getRealBrasiliaTime .networkError nowMs tzOffsetMin
        = getBrasiliaTimeFallback nowMs tzOffsetMin
  ∧ getRealBrasiliaTime .httpError nowMs tzOffsetMin
        = getBrasiliaTimeFallback nowMs tzOffsetMin
  ∧ getRealBrasiliaTime .invalidJson nowMs tzOffsetMin
        = getBrasiliaTimeFallback nowMs tzOffsetMin
  ∧ getBrasiliaTimeFallback nowMs tzOffsetMin
        = .valid (nowMs + tzOffsetMin * 60000 - 3 * 3600000)
  ∧ getRealBrasiliaTime (.success t) nowMs tzOffsetMin = .valid t := by
  refine ⟨rfl, rfl, rfl, ?_, rfl⟩
  unfold getBrasiliaTimeFallback
  norm_num
  ring

/-- A raw `/api/sensor-data` request body: each of the five measurement keys is
either absent/undefined (`none`) or present (the values themselves play no role
in any verified property). -/
structure RawPayload where
  temperatura : Option Int
  umidadeAr : Option Int
  umidadeSolo : Option Int
  ldr : Option Int
  bomba : Option Bool
deriving DecidableEq, Repr

/-- The fixed 400 message of `POST /api/sensor-data` (src/server.js:262). -/
def dadosIncompletosMsg : String :=
  "Dados incompletos. Envie: temperatura, umidadeAr, umidadeSolo, ldr, bomba"

/-- Response of `POST /api/sensor-data`. -/
inductive PostResult
  | badRequest (message : String)
  | created (data : Reading) (database : Backend)
deriving DecidableEq, Repr

/-- `POST /api/sensor-data` (src/server.js:251-307): reject with the fixed 400
message when any of the five measurement fields is `undefined`; otherwise build
the record (timestamp `now`) and store it on the backend selected by the live
`readyState`; the memory backend stamps `id = nextId++`. -/
def postSensorData (st : SysState) (p : RawPayload) (now : Millis) :
    SysState × PostResult :=
  if p.temperatura.isNone || p.umidadeAr.isNone || p.umidadeSolo.isNone
      || p.ldr.isNone || p.bomba.isNone then
    (st, .badRequest dadosIncompletosMsg)
  else
    let r : Reading :=
      ⟨p.temperatura.getD 0, p.umidadeAr.getD 0, p.umidadeSolo.getD 0,
        p.ldr.getD 0, p.bomba.getD false, now, 0⟩
    if st.readyState = 1 then
      ({ st with mongoStore := st.mongoStore ++ [r] }, .created r .mongodb)
    else
      let r2 : Reading := { r with id := st.nextId }
      ({ st with memStore := st.memStore ++ [r2], nextId := st.nextId + 1 },
       .created r2 .memory)

/-- Modelled from the spec: "a ValidationError naming the missing fields" - the
names of the required measurement fields actually absent from the payload.  The
handler computes no such list. -/
def missingFields (p : RawPayload) : List String :=
  (if p.temperatura.isNone then ["temperatura"] else [])
  ++ (if p.umidadeAr.isNone then ["umidadeAr"] else [])
  ++ (if p.umidadeSolo.isNone then ["umidadeSolo"] else [])
  ++ (if p.ldr.isNone then ["ldr"] else [])
  ++ (if p.bomba.isNone then ["bomba"] else [])

theorem missing_nil_iff (p : RawPayload) :
    missingFields p = [] ↔
      (p.temperatura.isNone || p.umidadeAr.isNone || p.umidadeSolo.isNone
        || p.ldr.isNone || p.bomba.isNone) = false := by
  rcases p with ⟨t, a, so, l, b⟩
  cases t <;> cases a <;> cases so <;> cases l <;> cases b <;>
    simp [missingFields]

/-- Payload with only `temperatura` missing. -/
def pSemTemperatura : RawPayload := ⟨none, some 60, some 512, some 2048, some true⟩

/-- Payload with only `bomba` missing. -/
def pSemBomba : RawPayload := ⟨some 25, some 60, some 512, some 2048, none⟩

/-- A fresh memory-backend state. -/
def st0 : SysState := ⟨0, [], [], 1⟩

/-- C8 counterexample: two payloads with different sets of missing fields get
the identical fixed rejection message, which names all five required fields; so
the error does not name the fields that are actually absent. -/
theorem validation_message_counterexample :
    missingFields pSemTemperatura = ["temperatura"]
  ∧ missingFields pSemBomba = ["bomba"]
  ∧ (postSensorData st0 pSemTemperatura 0).2 = .badRequest dadosIncompletosMsg
  ∧ (postSensorData st0 pSemBomba 0).2 = .badRequest dadosIncompletosMsg
  ∧ missingFields pSemTemperatura ≠ missingFields pSemBomba := by
  refine ⟨rfl, rfl, rfl, rfl, by decide⟩

/-- C8 (amended): whenever at least one of the five measurement fields is
missing or undefined, the submission is rejected with the fixed 400 message
listing all five required field names, and nothing is written to either store
(the state is returned unchanged). -/
theorem validation_rejects_incomplete (st : SysState) (p : RawPayload)
    (now : Millis) (h : missingFields p ≠ []) :
    postSensorData st p now = (st, .badRequest dadosIncompletosMsg) := by
  have hc : (p.temperatura.isNone || p.umidadeAr.isNone || p.umidadeSolo.isNone
      || p.ldr.isNone || p.bomba.isNone) = true := by
    rcases Bool.eq_false_or_eq_true (p.temperatura.isNone || p.umidadeAr.isNone
      || p.umidadeSolo.isNone || p.ldr.isNone || p.bomba.isNone) with ht | hf
    · exact ht
    · exact absurd ((missing_nil_iff p).2 hf) h
  unfold postSensorData
  rw [hc]
  rfl

/-- Witness for C8 at the payload missing only `temperatura`. -/
theorem validation_rejects_incomplete_witness :
    postSensorData st0 pSemTemperatura 3 = (st0, .badRequest dadosIncompletosMsg) :=
  validation_rejects_incomplete st0 pSemTemperatura 3 (by decide)

/-- `connectDB` (src/server.js:17-30): a single connection attempt at startup;
a missing/placeholder URI or a caught connection error leaves the memory
fallback.  The resulting `readyState` is 1 iff the one attempt succeeded. -/
def connectDB (uriConfigured : Bool) (connectOk : Bool) : Nat :=
  if uriConfigured && connectOk then 1 else 0

/-- The backend a handler picks: every route evaluates
`mongoose.connection.readyState === 1` at call time. -/
def backendOf (readyState : Nat) : Backend :=
  if readyState = 1 then .mongodb else .memory

/-- External events over the process lifetime: an API request, or a change of
the live mongoose connection state (the driver updates `readyState` when the
connection drops or re-establishes). -/
inductive Event
  | request
  | connChange (r : Nat)
deriving DecidableEq, Repr

/-- Backend used by each successive request of an event trace, starting from
the `readyState` left by `connectDB`: each request re-reads the live state. -/
def backendsUsed (r : Nat) : List Event → List Backend
  | [] => []
  | .request :: es => backendOf r :: backendsUsed r es
  | .connChange r' :: es => backendsUsed r' es

/-- Modelled from the spec: a Storage Gateway that records the backend decision
once at startup and routes every request by that startup-time decision, never
re-probing the connection state. -/
def backendsUsedStartupLatched (r0 : Nat) : List Event → List Backend
  | [] => []
  | Event.request :: es => backendOf r0 :: backendsUsedStartupLatched r0 es
  | Event.connChange _ :: es => backendsUsedStartupLatched r0 es

/-- C3 counterexample: starting connected (readyState 1) a request routes to
MongoDB; after the driver drops the connection (readyState 0) the next request
routes to the memory store.  The code re-probes the connection state on every
request, and the active backend changes mid-run, unlike the startup-latched
gateway of the spec. -/
theorem backend_latch_counterexample :
    backendsUsed 1 [.request, .connChange 0, .request]
        = [.mongodb, .memory]
  ∧ backendsUsedStartupLatched 1 [.request, .connChange 0, .request]
        = [.mongodb, .mongodb]
  ∧ ([Backend.mongodb, Backend.memory] ≠ [Backend.mongodb, Backend.mongodb]) := by
  refine ⟨rfl, rfl, by decide⟩

/-- C3 (amended): each Storage Gateway operation routes by reading the live
`mongoose.connection.readyState` at call time (MongoDB iff it equals 1); in a
run in which the connection state never changes after startup this per-request
probing coincides with a startup-latched gateway and every request uses the
same single backend. -/
theorem backend_routing (r : Nat) (es : List Event)
    (h : ∀ e ∈ es, e = Event.request) :
    backendsUsed r es = backendsUsedStartupLatched r es
  ∧ backendsUsed r es = List.replicate es.length (backendOf r) := by
  induction es with
  | nil => exact ⟨rfl, rfl⟩
  | cons e es ih =>
    have he : e = Event.request := h e (List.mem_cons_self e es)
    subst he
    have ih' := ih (fun e' he' => h e' (List.mem_cons_of_mem _ he'))
    refine ⟨?_, ?_⟩
    · show backendOf r :: backendsUsed r es
          = backendOf r :: backendsUsedStartupLatched r es
      rw [ih'.1]
    · show backendOf r :: backendsUsed r es
          = List.replicate (es.length + 1) (backendOf r)
      rw [List.replicate_succ, ih'.2]

/-- Witness for C3 on a two-request trace with the connection up. -/
theorem backend_routing_witness :
    backendsUsed 1 [Event.request, Event.request]
        = backendsUsedStartupLatched 1 [Event.request, Event.request]
  ∧ backendsUsed 1 [Event.request, Event.request]
        = List.replicate ([Event.request, Event.request]).length (backendOf 1) :=
  backend_routing 1 [Event.request, Event.request] (by decide)

/-- `GET /api/sensor-data`, MongoDB branch (src/server.js:314):
`SensorData.find().sort(...)` by `timestamp` descending, `.limit(100)`. -/
def getSensorDataMongo (store : List Reading) : List Reading :=
  (store.mergeSort (fun a b => decide (b.timestamp ≤ a.timestamp))).take 100

/-- `GET /api/sensor-data`, memory branch (src/server.js:327):
`[...sensorDataMemory].reverse()` - the whole array reversed, no limit. -/
def getSensorDataMemory (mem : List Reading) : List Reading :=
  mem.reverse

/-- `GET /api/sensor-data` (src/server.js:310-339): route on the live
`readyState`. -/
def getSensorData (st : SysState) : List Reading :=
  if st.readyState = 1 then getSensorDataMongo st.mongoStore
  else getSensorDataMemory st.memStore

/-- Newest-first order: every record's `timestamp` is ≥ each later one's. -/
def sortedByTimestampDesc (l : List Reading) : Prop :=
  l.Pairwise (fun a b => b.timestamp ≤ a.timestamp)

/-- A record with the newer timestamp, inserted first. -/
def rNewer : Reading := ⟨0, 0, 0, 0, false, 5, 1⟩

/-- A record with the older timestamp, inserted second. -/
def rOlder : Reading := ⟨0, 0, 0, 0, false, 3, 2⟩

/-- A memory store holding 101 records. -/
def mem101 : List Reading :=
  (List.range 101).map (fun i : Nat => ⟨0, 0, 0, 0, false, Int.ofNat i, i + 1⟩)

/-- C4 counterexample: the fallback branch of `GET /api/sensor-data` merely
reverses the array - with the newer record inserted first the output is
ascending, not descending by `capturedAt` - and it applies no limit: a
101-record memory store yields all 101 records, beyond the durable branch's
100.  So the fallback backend honors neither the ordering nor the limit for
every store state. -/
theorem list_recent_counterexample :
    getSensorData ⟨0, [], [rNewer, rOlder], 3⟩ = [rOlder, rNewer]
  ∧ rOlder.timestamp < rNewer.timestamp
  ∧ ¬ sortedByTimestampDesc [rOlder, rNewer]
  ∧ (getSensorData ⟨0, [], mem101, 102⟩).length = 101
  ∧ ¬ ((101 : Nat) ≤ 100) := by
  refine ⟨rfl, by decide, ?_, ?_, by decide⟩
  · intro hp
    have h5 := (List.pairwise_cons.1 hp).1 rNewer (by simp)
    revert h5
    decide
  · show (getSensorDataMemory mem101).length = 101
    simp only [getSensorDataMemory, mem101]
    rw [List.length_reverse, List.length_map, List.length_range]

/-- C4 (amended): the MongoDB branch returns at most 100 records ordered by
`capturedAt` descending; the memory branch returns all records (no limit) in
reverse insertion order, which is `capturedAt`-descending exactly when the
insertion order was `capturedAt`-ascending. -/
theorem list_recent_behavior (mongo mem : List Reading) :
    (getSensorDataMongo mongo).length ≤ 100
  ∧ sortedByTimestampDesc (getSensorDataMongo mongo)
  ∧ (getSensorDataMemory mem).length = mem.length
  ∧ (mem.Pairwise (fun a b => a.timestamp ≤ b.timestamp)
        → sortedByTimestampDesc (getSensorDataMemory mem)) := by
  refine ⟨?_, ?_, by simp [getSensorDataMemory], ?_⟩
  · simp [getSensorDataMongo]
  · unfold getSensorDataMongo sortedByTimestampDesc
    have hs := @List.sorted_mergeSort Reading
      (fun a b : Reading => decide (b.timestamp ≤ a.timestamp))
      (by intro a b c hab hbc; simp at *; exact le_trans hbc hab)
      (by intro a b; simp; exact le_total _ _) mongo
    have hp : (mongo.mergeSort
        (fun a b => decide (b.timestamp ≤ a.timestamp))).Pairwise
        (fun a b => b.timestamp ≤ a.timestamp) := by
      simpa [List.Sorted] using hs
    exact List.Pairwise.sublist (List.take_sublist _ _) hp
  · intro h
    unfold getSensorDataMemory sortedByTimestampDesc
    rw [List.pairwise_reverse]
    exact h

/-- Witness for C4 at a memory store whose insertion order is ascending. -/
theorem list_recent_behavior_witness :
    sortedByTimestampDesc (getSensorDataMemory [rOlder, rNewer]) :=
  (list_recent_behavior [] [rOlder, rNewer]).2.2.2
    (by simp [rOlder, rNewer, List.pairwise_cons])

/-- The complete end-to-end payload of the spec's example submission. -/
def pCompleto : RawPayload := ⟨some 25, some 60, some 512, some 2048, some true⟩

/-- C9 counterexample: on the memory backend, insert - wipeAll - insert assigns
id 1 to both records ever stored, because `resetDatabase` resets `nextId` to 1:
sequenceIds are reused after a wipe and are not monotonically increasing across
all inserts into the backend. -/
theorem sequence_id_counterexample :
    ((postSensorData st0 pCompleto 10).1).memStore.map (fun r => r.id) = [1]
  ∧ (RollingWindow.resetDatabase ⟨(postSensorData st0 pCompleto 10).1, 0⟩
        20 true).1.sys.nextId = 1
  ∧ ((postSensorData
        (RollingWindow.resetDatabase ⟨(postSensorData st0 pCompleto 10).1, 0⟩
          20 true).1.sys
        pCompleto 30).1).memStore.map (fun r => r.id) = [1]
  ∧ ¬ ((1 : Nat) < 1) := by
  refine ⟨rfl, rfl, rfl, by decide⟩

/-- `k` successive submissions of the same valid payload. -/
def insertManyMem (p : RawPayload) (now : Millis) : Nat → SysState → SysState
  | 0, st => st
  | Nat.succ k, st => insertManyMem p now k (postSensorData st p now).1

theorem post_valid_mem (st : SysState) (p : RawPayload) (now : Millis)
    (hv : missingFields p = []) (hmem : ¬ st.readyState = 1) :
    (postSensorData st p now).1
      = { st with
          memStore := st.memStore
            ++ [⟨p.temperatura.getD 0, p.umidadeAr.getD 0, p.umidadeSolo.getD 0,
                  p.ldr.getD 0, p.bomba.getD false, now, st.nextId⟩],
          nextId := st.nextId + 1 } := by
  have hc := (missing_nil_iff p).1 hv
  unfold postSensorData
  rw [hc]
  simp only [Bool.false_eq_true, if_false]
  rw [if_neg hmem]

/-- C9 (amended): within a single wipe epoch the memory backend assigns
sequenceIds from the `nextId` counter, so the ids of `k` successive inserts are
`nextId, nextId+1, ...` - strictly increasing, hence unique, across the epoch;
but `resetDatabase` resets the counter to 1, so ids restart after every wipe. -/
theorem sequence_ids_epoch (st : SysState) (p : RawPayload) (now : Millis)
    (k : Nat) (hv : missingFields p = []) (hmem : ¬ st.readyState = 1) :
    (insertManyMem p now k st).memStore.map (fun r => r.id)
        = st.memStore.map (fun r => r.id) ++ List.range' st.nextId k
  ∧ List.Pairwise (· < ·) (List.range' st.nextId k)
  ∧ (RollingWindow.resetDatabase ⟨st, 0⟩ 0 true).1.sys.nextId = 1 := by
  refine ⟨?_, List.pairwise_lt_range' _ _, ?_⟩
  · induction k generalizing st with
    | zero => simp [insertManyMem]
    | succ k ih =>
      have hstep := post_valid_mem st p now hv hmem
      simp only [insertManyMem]
      rw [ih ((postSensorData st p now).1) (by rw [hstep]; exact hmem)]
      rw [hstep]
      simp [List.range'_succ]
  · unfold RollingWindow.resetDatabase
    rw [if_neg hmem]

/-- Witness for C9: three inserts into the fresh memory state yield ids 1,2,3. -/
theorem sequence_ids_epoch_witness :
    (insertManyMem pCompleto 10 3 st0).memStore.map (fun r => r.id)
        = st0.memStore.map (fun r => r.id) ++ List.range' st0.nextId 3
  ∧ List.Pairwise (· < ·) (List.range' st0.nextId 3)
  ∧ (RollingWindow.resetDatabase ⟨st0, 0⟩ 0 true).1.sys.nextId = 1 :=
  sequence_ids_epoch st0 pCompleto 10 3 (by decide) (by decide)

namespace ConcurrentTicks

/-- Progress of one in-flight `checkAndResetDaily` tick against the MongoDB
backend.  JavaScript runs each cron callback atomically between `await`s; a
wiping tick suspends at `await countDocuments()` and `await deleteMany()`. -/
inductive Phase
  | start
  | awaitingCount
  | awaitingDelete
  | done
deriving DecidableEq, Repr

/-- Shared world of simultaneously fired cron ticks: the reset marker, the
phases of the in-flight tasks, and how many `deleteMany` (wipeAll) calls have
been issued. -/
structure World where
  lastResetTimestamp : Millis
  tasks : List Phase
  wipeCalls : Nat
deriving DecidableEq, Repr

/-- Run task `i` up to its next suspension point, at time `now`:
* from `start`, the synchronous prefix of `checkAndResetDaily` reads the marker
  and decides; at a crossed boundary it enters `resetDatabase` and suspends at
  `await countDocuments()`, otherwise the tick completes as a no-op;
* resuming after the count, it issues `deleteMany()` - the wipeAll call - and
  suspends on it;
* resuming after the delete, it assigns `lastResetTimestamp = Date.now()`. -/
def stepTask (now : Millis) (w : World) (i : Nat) : World :=
  match w.tasks[i]? with
  | none => w
  | some Phase.start =>
    if umDiaEmMs ≤ now - w.lastResetTimestamp then
      { w with tasks := w.tasks.set i Phase.awaitingCount }
    else
      { w with tasks := w.tasks.set i Phase.done }
  | some Phase.awaitingCount =>
    { w with tasks := w.tasks.set i Phase.awaitingDelete,
             wipeCalls := w.wipeCalls + 1 }
  | some Phase.awaitingDelete =>
    { w with tasks := w.tasks.set i Phase.done, lastResetTimestamp := now }
  | some Phase.done => w

/-- Run an event-loop schedule: which task resumes at each step. -/
def runSchedule (now : Millis) (w : World) : List Nat → World
  | [] => w
  | i :: rest => runSchedule now (stepTask now w i) rest

end ConcurrentTicks

/-- C10 counterexample: with the marker at 0, the hourly and the 6-hourly cron
ticks both fire at time 86400000 (a crossed boundary); under the event-loop
interleaving in which each callback runs its synchronous marker check before
either tick's `countDocuments` resolves, both tasks issue `deleteMany`: two
wipeAll calls for a single boundary crossing.  Nothing in the code serializes
the read-marker/decide/wipe/update-marker sequence. -/
theorem concurrent_ticks_counterexample :
    (ConcurrentTicks.runSchedule 86400000
        ⟨0, [ConcurrentTicks.Phase.start, ConcurrentTicks.Phase.start], 0⟩
        [0, 1, 0, 1, 0, 1]).wipeCalls = 2
  ∧ (2 : Nat) ≠ 1 := by
  refine ⟨by decide, by decide⟩

/-- C10 (amended): the scheduler has no mutex.  On the in-memory backend the
whole check-decide-wipe-update sequence is synchronous, so two ticks firing at
the same crossed boundary yield exactly one wipe (the second observes the
updated marker); on the MongoDB backend the sequence suspends at each `await`,
and the same double tick can issue two wipeAll calls, while a lone tick issues
exactly one. -/
theorem tick_serialization (s : SysState) (t0 now : Millis)
    (h : umDiaEmMs ≤ now - t0) :
    RollingWindow.tickFlags ⟨s, t0⟩ [now, now] = [true, false]
  ∧ (ConcurrentTicks.runSchedule 86400000
        ⟨0, [ConcurrentTicks.Phase.start, ConcurrentTicks.Phase.start], 0⟩
        [0, 1, 0, 1, 0, 1]).wipeCalls = 2
  ∧ (ConcurrentTicks.runSchedule 86400000
        ⟨0, [ConcurrentTicks.Phase.start], 0⟩ [0, 0, 0]).wipeCalls = 1 := by
  have h1 : RollingWindow.checkAndResetDaily ⟨s, t0⟩ now true
      = ((RollingWindow.resetDatabase ⟨s, t0⟩ now true).1, true) :=
    RollingWindow.check_eq_pos h
  have hm := RollingWindow.reset_ok_marker ⟨s, t0⟩ now
  have h2 : RollingWindow.checkAndResetDaily
      (RollingWindow.resetDatabase ⟨s, t0⟩ now true).1 now true
      = ((RollingWindow.resetDatabase ⟨s, t0⟩ now true).1, false) :=
    RollingWindow.check_eq_neg (by rw [hm]; norm_num [umDiaEmMs])
  refine ⟨?_, by decide, by decide⟩
  simp only [RollingWindow.tickFlags, h1, h2]

/-- Witness for C10 on the memory backend at the crossed boundary 86400000. -/
theorem tick_serialization_witness :
    RollingWindow.tickFlags ⟨⟨0, [], [], 1⟩, 0⟩ [86400000, 86400000]
      = [true, false] :=
  (tick_serialization ⟨0, [], [], 1⟩ 0 86400000 (by decide)).1

end Esp32
